import Mathlib

/-!
Shallow embedding of the clip-content-analyzer processing pipeline
(backend/embedding_retrieval): the rate-limited video downloader, the
frame extractor, the content-moderation similarity engine, and the
batch orchestrator.  External collaborators (the HTTP server, the video
decoder, the CLIP embedding model, the database) are modelled as oracles
supplied to the embedded functions; everything the Python code itself
computes is translated directly.
-/

namespace ClipAnalyzer

/-! ### config.py -/

/-- `DOWNLOAD_CHUNK_SIZE` from config.py: requested chunk size for
`response.iter_content`; each yielded chunk holds at most this many bytes. -/
def DOWNLOAD_CHUNK_SIZE : Nat := 8192

/-! ### video_downloader.py -/

/-- The exception classes a `download_video` call can surface.  `timeoutCls`
is `requests.exceptions.Timeout`, `connErrorCls` stands for any concrete
`requests.exceptions.RequestException` subclass other than `Timeout` (e.g.
`ConnectionError`), `reqExceptionCls` is the base
`requests.exceptions.RequestException` itself (the class the code
constructs directly when wrapping a timeout), and `valueErrorCls` is
Python's `ValueError`. -/
inductive ExnClass where
  | timeoutCls
  | connErrorCls
  | reqExceptionCls
  | valueErrorCls
  deriving DecidableEq, Repr

/-- Python's `isinstance(e, requests.exceptions.RequestException)`:
`Timeout` and `ConnectionError` are subclasses of `RequestException`. -/
def ExnClass.isRequestException : ExnClass → Bool
  | .timeoutCls => true
  | .connErrorCls => true
  | .reqExceptionCls => true
  | .valueErrorCls => false

/-- Python's `isinstance(e, requests.exceptions.Timeout)`. -/
def ExnClass.isTimeout : ExnClass → Bool
  | .timeoutCls => true
  | _ => false

/-- A raised Python exception: its class and its `str(error)` message. -/
structure Exn where
  cls : ExnClass
  msg : String
  deriving DecidableEq, Repr

/-- A URL as seen by `validate_url`: whether `validators.url(url)` accepts it
and the scheme `urlparse` reports.  The URL's remaining text plays no role in
`download_video`'s control flow. -/
structure Url where
  wellFormed : Bool
  scheme : String
  deriving DecidableEq, Repr

/-- `VideoDownloader.validate_url`: `validators.url(url)` must accept the URL
and the parsed scheme must be `http` or `https`. -/
def validate_url (u : Url) : Bool :=
  u.wellFormed && (u.scheme == "http" || u.scheme == "https")

/-- Outcome of the HEAD request inside `_check_file_size`: either a response
whose `content-length` header is present/absent, or a
`requests.exceptions.RequestException` raised while making it. -/
inductive HeadResult where
  | ok (contentLength : Option Nat)
  | err
  deriving DecidableEq, Repr

/-- Outcome of the streamed GET request in `download_video`: a
`requests.exceptions.Timeout`, another `RequestException` (re-raised with its
own class), or a successful stream whose body `iter_content` yields as the
given chunk sizes (in bytes; empty keep-alive chunks appear as `0`). -/
inductive GetOutcome where
  | timeout (msg : String)
  | netErr (msg : String)
  | stream (chunks : List Nat)
  deriving DecidableEq, Repr

/-- The chunk sizes a `GetOutcome` streams (empty for failures). -/
def GetOutcome.chunks : GetOutcome → List Nat
  | .stream cs => cs
  | _ => []

/-- The server's behaviour for one `download_video` call: the HEAD response
and the GET response. -/
structure DownloadEnv where
  head : HeadResult
  get : GetOutcome
  deriving DecidableEq, Repr

/-- `VideoDownloader._check_file_size`: HEAD the URL; a missing
`content-length` yields `None`; a reported size above `max_file_size` raises
`ValueError`; a `RequestException` during the HEAD is caught and `None` is
returned so the download proceeds. -/
def check_file_size (maxFileSize : Nat) (h : HeadResult) :
    Except Exn (Option Nat) :=
  match h with
  | .err => .ok none
  | .ok none => .ok none
  | .ok (some n) =>
      if n > maxFileSize then
        .error ⟨.valueErrorCls, "File size exceeds maximum allowed"⟩
      else .ok (some n)

/-- The chunk-writing loop of `download_video`: for each chunk, skip it if
empty (`if chunk:`), otherwise write it, add its length to
`total_downloaded`, and only then check `total_downloaded > max_file_size`,
raising `ValueError` if so.  Returns the total bytes written and the raised
exception, if any. -/
def writeChunks (maxFileSize : Nat) : List Nat → Nat → Nat × Option Exn
  | [], total => (total, none)
  | c :: rest, total =>
      if c ≠ 0 then
        let total' := total + c
        if total' > maxFileSize then
          (total', some ⟨.valueErrorCls, "Download exceeded maximum file size"⟩)
        else
          writeChunks maxFileSize rest total'
      else
        writeChunks maxFileSize rest total

/-- The observable outcome of one `download_video` call: the returned value
or raised exception, the network requests issued (method names, in order),
the total bytes written to `local_path`, and whether the local file still
exists when the call returns (the `finally` block unlinks it only when it
exists and `total_downloaded == 0`). -/
structure DownloadResult where
  outcome : Except Exn Bool
  requests : List String
  bytesWritten : Nat
  fileExistsAfter : Bool
  deriving Repr

/-- `VideoDownloader.download_video`: validate the URL (raising `ValueError`
before any network call on failure), run the pre-flight size check, then
stream the body chunk by chunk under the mid-stream size check.  A
`requests.exceptions.Timeout` is caught and re-raised as a plain
`requests.RequestException` with message `"Download timeout: ..."`; other
`RequestException`s are re-raised unchanged.  The `finally` block removes the
local file only when it exists and zero bytes were written; the file is only
created once the GET has returned and `open(local_path, 'wb')` runs. -/
def download_video (maxFileSize : Nat) (url : Url) (env : DownloadEnv) :
    DownloadResult :=
  if validate_url url then
    match check_file_size maxFileSize env.head with
    | .error e =>
        { outcome := .error e, requests := ["HEAD"],
          bytesWritten := 0, fileExistsAfter := false }
    | .ok _expectedSize =>
        match env.get with
        | .timeout msg =>
            { outcome := .error ⟨.reqExceptionCls, "Download timeout: " ++ msg⟩,
              requests := ["HEAD", "GET"],
              bytesWritten := 0, fileExistsAfter := false }
        | .netErr msg =>
            { outcome := .error ⟨.connErrorCls, msg⟩,
              requests := ["HEAD", "GET"],
              bytesWritten := 0, fileExistsAfter := false }
        | .stream chunks =>
            match writeChunks maxFileSize chunks 0 with
            | (total, some e) =>
                { outcome := .error e, requests := ["HEAD", "GET"],
                  bytesWritten := total, fileExistsAfter := total != 0 }
            | (total, none) =>
                { outcome := .ok true, requests := ["HEAD", "GET"],
                  bytesWritten := total, fileExistsAfter := total != 0 }
  else
    { outcome := .error ⟨.valueErrorCls, "Invalid URL"⟩, requests := [],
      bytesWritten := 0, fileExistsAfter := false }

/-! ### frame_extractor_class.py -/

/-- The numpy array `clip.get_frame(timestamp)` returns: a raster of shape
`height × width × channels`; `frame_array.size` is the product of the three. -/
structure FrameArray where
  height : Nat
  width : Nat
  channels : Nat
  deriving DecidableEq, Repr

/-- `frame_array.size` in numpy: the total number of elements. -/
def FrameArray.size (fa : FrameArray) : Nat :=
  fa.height * fa.width * fa.channels

/-- The PIL image produced by `Image.fromarray(np.uint8(frame_array))`;
`image.size` is `(width, height)`. -/
structure PilImage where
  width : Nat
  height : Nat
  deriving DecidableEq, Repr

/-- `Image.fromarray(np.uint8(frame_array))` on our raster model. -/
def fromArray (fa : FrameArray) : PilImage :=
  { width := fa.width, height := fa.height }

/-- What the external decoder (`moviepy.VideoFileClip`) reports for the
local video file: its `duration` and, for each requested timestamp, the
frame array `get_frame` returns (`none` models a `None` result). -/
structure VideoMeta where
  duration : ℚ
  get_frame : ℚ → Option FrameArray

/-- The local video file as the extractor's validations see it, together
with its decoder view. -/
structure VideoFile where
  onDisk : Bool
  isFile : Bool
  sizeBytes : Nat
  meta : VideoMeta

/-- The exceptions `extract_frames_at_percentages` can raise.
`fileNotFound`/`invalidInput` come from the two validators,
`invalidDuration` from the `duration <= 0` check, and
`extractionFailed p` is the `RuntimeError` raised (and re-raised by the
inner `except`) naming the offending percentage `p`. -/
inductive ExtractErr where
  | fileNotFound
  | invalidInput (msg : String)
  | invalidDuration (d : ℚ)
  | extractionFailed (percentage : ℚ)
  deriving DecidableEq, Repr

/-- `FrameExtractor.validate_percentages`: the list must be non-empty and
every entry must lie in `[0.0, 1.0]` (the `isinstance` check cannot fail on
a numeric model).  Returns the raised `ValueError`, if any. -/
def validate_percentages (ps : List ℚ) : Option ExtractErr :=
  if ps.isEmpty then
    some (.invalidInput "At least one percentage must be specified")
  else if ps.all (fun p => decide (0 ≤ p) && decide (p ≤ 1)) then
    none
  else
    some (.invalidInput "Percentage must be between 0.0 and 1.0")

/-- `FrameExtractor.validate_video_file`: the path must exist, be a regular
file, and be non-empty. -/
def validate_video_file (v : VideoFile) : Option ExtractErr :=
  if !v.onDisk then some .fileNotFound
  else if !v.isFile then some (.invalidInput "Path is not a file")
  else if v.sizeBytes = 0 then some (.invalidInput "Video file is empty")
  else none

/-- One iteration of the extraction loop at percentage `p`: compute
`timestamp = duration * percentage`, call `get_frame`, raise
`RuntimeError` (naming `p`) when the array is `None` or empty, convert to a
PIL image, and raise when the image has a zero dimension. -/
def extractOne (v : VideoFile) (p : ℚ) : Except ExtractErr PilImage :=
  let timestamp := v.meta.duration * p
  match v.meta.get_frame timestamp with
  | none => .error (.extractionFailed p)
  | some fa =>
      if fa.size = 0 then .error (.extractionFailed p)
      else
        let image := fromArray fa
        if image.width = 0 ∨ image.height = 0 then
          .error (.extractionFailed p)
        else .ok image

/-- The `for` loop of `extract_frames_at_percentages`: accumulate the
extracted frames in input order, aborting at the first failing percentage
(the raised `RuntimeError` propagates; no partial list is returned). -/
def extractLoop (v : VideoFile) : List ℚ → Except ExtractErr (List PilImage)
  | [] => .ok []
  | p :: rest =>
      match extractOne v p with
      | .error e => .error e
      | .ok image =>
          match extractLoop v rest with
          | .error e => .error e
          | .ok tail => .ok (image :: tail)

/-- `FrameExtractor.extract_frames_at_percentages`: validate the file and the
percentages, open the video once, fail on non-positive duration, then run the
extraction loop.  (Resource release in the `finally` block has no observable
effect in this model.) -/
def extract_frames_at_percentages (v : VideoFile) (ps : List ℚ) :
    Except ExtractErr (List PilImage) :=
  match validate_video_file v with
  | some e => .error e
  | none =>
      match validate_percentages ps with
      | some e => .error e
      | none =>
          if v.meta.duration ≤ 0 then
            .error (.invalidDuration v.meta.duration)
          else
            extractLoop v ps

/-! ### content_moderator.py -/

/-- The mutable state of a `ContentModerator`: the `inappropriate_content`
vocabulary (an insertion-ordered dict from category to its word list), the
key set of `text_embeddings_cache` (the cached embedding vectors themselves
live in the external CLIP model's output space and are determined by the
word, since the model is deterministic), and `similarity_threshold`. -/
structure Moderator where
  inappropriate_content : List (String × List String)
  cacheKeys : List String
  similarity_threshold : ℚ
  deriving DecidableEq, Repr

/-- Python dict lookup `d[category]` / `category in d` on the ordered
association list. -/
def lookupCat : List (String × List String) → String → Option (List String)
  | [], _ => none
  | (c, ws) :: rest, cat => if c = cat then some ws else lookupCat rest cat

/-- `self.inappropriate_content[category].append(word)`: append `word` to the
word list stored under `category`, leaving other entries unchanged. -/
def appendWord : List (String × List String) → String → String →
    List (String × List String)
  | [], _, _ => []
  | (c, ws) :: rest, cat, w =>
      if c = cat then (c, ws ++ [w]) :: rest
      else (c, ws) :: appendWord rest cat w

/-- `ContentModerator.add_inappropriate_word`: create the category with an
empty list when absent (a dict insertion appends a new key), then append the
word only when it is not already present, clearing the whole text-embedding
cache in that case. -/
def add_inappropriate_word (m : Moderator) (category word : String) :
    Moderator :=
  let vocab1 :=
    match lookupCat m.inappropriate_content category with
    | some _ => m.inappropriate_content
    | none => m.inappropriate_content ++ [(category, [])]
  match lookupCat vocab1 category with
  | some ws =>
      if word ∈ ws then { m with inappropriate_content := vocab1 }
      else
        { inappropriate_content := appendWord vocab1 category word,
          cacheKeys := [],
          similarity_threshold := m.similarity_threshold }
  | none => { m with inappropriate_content := vocab1 }

/-- `ContentModerator.set_similarity_threshold`: accept a value in
`[0.0, 1.0]`, raise `ValueError` otherwise. -/
def set_similarity_threshold (m : Moderator) (t : ℚ) : Except Exn Moderator :=
  if 0 ≤ t ∧ t ≤ 1 then .ok { m with similarity_threshold := t }
  else .error ⟨.valueErrorCls, "Threshold must be between 0.0 and 1.0"⟩

/-- The external side of `check_image_content` for one fixed image
embedding: whether `get_text_embedding(word)` succeeds for a word (a failure
is caught, logged, and the word skipped) and, when it does, the value
`cosine_similarity(image_embedding, text_embedding)` computed from the CLIP
model's deterministic text embedding of that word. -/
structure SimOracle where
  embedOk : String → Bool
  sim : String → ℚ

/-- The per-category slice of the moderation verdict. -/
structure CategoryResult where
  max_similarity : ℚ
  most_similar_word : Option String
  flagged : Bool
  deriving DecidableEq, Repr

/-- The dictionary `check_image_content` returns. -/
structure ModerationVerdict where
  flagged : Bool
  categories : List (String × CategoryResult)
  max_similarity : ℚ
  most_similar_content : Option String
  deriving DecidableEq, Repr

/-- The inner word loop of `check_image_content`: thread the
category-level and overall running maxima (both starting at `0.0` with no
best word) through the words, updating each on a strict `>` comparison and
skipping words whose embedding call failed. -/
def scanWords (o : SimOracle) :
    List String → ℚ → Option String → ℚ → Option String →
    ℚ × Option String × ℚ × Option String
  | [], cMax, cBest, gMax, gBest => (cMax, cBest, gMax, gBest)
  | w :: rest, cMax, cBest, gMax, gBest =>
      if o.embedOk w then
        let s := o.sim w
        let cAcc := if s > cMax then (s, some w) else (cMax, cBest)
        let gAcc := if s > gMax then (s, some w) else (gMax, gBest)
        scanWords o rest cAcc.1 cAcc.2 gAcc.1 gAcc.2
      else
        scanWords o rest cMax cBest gMax gBest

/-- The outer category loop of `check_image_content`: for each category,
run the word loop with the category maximum reset to `0.0`, record the
category result with `flagged = (category_max > threshold)`, and carry the
overall maximum across categories. -/
def scanCategories (o : SimOracle) (threshold : ℚ) :
    List (String × List String) → ℚ → Option String →
    List (String × CategoryResult) × ℚ × Option String
  | [], gMax, gBest => ([], gMax, gBest)
  | (cat, ws) :: rest, gMax, gBest =>
      let step := scanWords o ws 0 none gMax gBest
      let catResult : CategoryResult :=
        { max_similarity := step.1,
          most_similar_word := step.2.1,
          flagged := decide (step.1 > threshold) }
      let tail := scanCategories o threshold rest step.2.2.1 step.2.2.2
      ((cat, catResult) :: tail.1, tail.2.1, tail.2.2)

/-- `ContentModerator.check_image_content`: scan every category of the
vocabulary and assemble the verdict, with
`flagged = (max_similarity > similarity_threshold)` computed by a strict
comparison. -/
def check_image_content (m : Moderator) (o : SimOracle) : ModerationVerdict :=
  let scanned :=
    scanCategories o m.similarity_threshold m.inappropriate_content 0 none
  { flagged := decide (scanned.2.1 > m.similarity_threshold),
    categories := scanned.1,
    max_similarity := scanned.2.1,
    most_similar_content := scanned.2.2 }

/-! ### video_processor.py -/

/-- A clip record as fetched from the database: `clip.get('id')`,
`clip.get('title')` and `clip.get('clip_path')`, each possibly absent. -/
structure Clip where
  id : Option String
  title : Option String
  clip_path : Option String
  deriving DecidableEq, Repr

/-- Python truthiness of `clip.get('clip_path')`: false when the key is
absent (`None`) or the string is empty. -/
def urlTruthy : Option String → Bool
  | none => false
  | some s => s ≠ ""

/-- The outcome the collaborators produce for one pipeline step: a returned
value or a raised exception with message `str(error)`. -/
inductive StepOutcome (α : Type) where
  | ok (a : α)
  | raise (msg : String)
  deriving DecidableEq, Repr

/-- How the downloader, the extractor, and the frame-saving step behave for
one clip: `download` is `download_video`'s returned bool or exception,
`extract` is the number of frames `extract_frames_at_percentages` returns or
its exception, and `saveError` is the exception raised while saving frames,
if any. -/
structure ClipEnv where
  download : StepOutcome Bool
  extract : StepOutcome Nat
  saveError : Option String
  deriving DecidableEq, Repr

/-- The `ProcessingResult` record (the wall-clock `processing_time` field is
not modelled). -/
structure ProcessingResult where
  clip_id : String
  clip_title : String
  success : Bool
  frame_paths : List String
  error_message : Option String
  frames_extracted : Nat
  deriving DecidableEq, Repr

/-- The frame artifact paths `f"{clip_id}_frame_{i}.jpg"` for `i = 1..n`. -/
def framePaths (clip_id : String) (n : Nat) : List String :=
  (List.range n).map
    (fun i => clip_id ++ "_frame_" ++ toString (i + 1) ++ ".jpg")

/-- `VideoProcessor.process_single_clip`: a missing/empty `clip_path` returns
a failed result with a fixed message before any work; a download exception or
a `False` download return, an extraction exception, or a save exception each
produce a failed result carrying the exception's `str` (the `try`/`except`
converts any exception into `error_message`); otherwise the result is marked
successful with the saved frame paths and frame count.  The `finally` block's
temp-file removal has no effect on the returned result. -/
def process_single_clip (clip : Clip) (env : ClipEnv) : ProcessingResult :=
  let clip_id := clip.id.getD "unknown"
  let clip_title := clip.title.getD "Unknown"
  let base : ProcessingResult :=
    { clip_id := clip_id, clip_title := clip_title, success := false,
      frame_paths := [], error_message := none, frames_extracted := 0 }
  if !urlTruthy clip.clip_path then
    { base with error_message := some "No clip_path found in clip data" }
  else
    match env.download with
    | .raise msg => { base with error_message := some msg }
    | .ok false => { base with error_message := some "Video download failed" }
    | .ok true =>
        match env.extract with
        | .raise msg => { base with error_message := some msg }
        | .ok n =>
            match env.saveError with
            | some msg => { base with error_message := some msg }
            | none =>
                { base with
                  success := true,
                  frame_paths := framePaths clip_id n,
                  frames_extracted := n }

/-- `results[clip_id] = result`: Python dict insertion (update in place when
the key exists, append otherwise). -/
def dictInsert (d : List (String × ProcessingResult)) (key : String)
    (r : ProcessingResult) : List (String × ProcessingResult) :=
  match d with
  | [] => [(key, r)]
  | (k, v) :: rest =>
      if k = key then (k, r) :: rest else (k, v) :: dictInsert rest key r

/-- `results.get(clip_id)` on the model dict. -/
def dictLookup (d : List (String × ProcessingResult)) (key : String) :
    Option ProcessingResult :=
  match d with
  | [] => none
  | (k, v) :: rest => if k = key then some v else dictLookup rest key

/-- The orchestrator's observable batch state after `process_all_clips`: the
returned results dict and the three statistics counters. -/
structure BatchState where
  results : List (String × ProcessingResult)
  total_processed : Nat
  successful_processed : Nat
  failed_processed : Nat
  deriving DecidableEq, Repr

/-- The `for i, clip in enumerate(clips, 1)` loop of `process_all_clips`:
process each clip, store its result under `clip.get('id', f'unknown_{i}')`,
and update the counters exactly once per clip after the result is final. -/
def runBatch : List (Clip × ClipEnv) → Nat → BatchState → BatchState
  | [], _, st => st
  | (clip, env) :: rest, i, st =>
      let key := clip.id.getD ("unknown_" ++ toString i)
      let r := process_single_clip clip env
      let st' : BatchState :=
        { results := dictInsert st.results key r,
          total_processed := st.total_processed + 1,
          successful_processed :=
            st.successful_processed + (if r.success then 1 else 0),
          failed_processed :=
            st.failed_processed + (if r.success then 0 else 1) }
      runBatch rest (i + 1) st'

/-- `VideoProcessor.process_all_clips` on a freshly constructed processor
(all counters zero), with the clips the database returns paired with each
clip's collaborator behaviour.  An empty clip list returns the empty dict;
otherwise the counters are reset to zero and the loop runs. -/
def process_all_clips (items : List (Clip × ClipEnv)) : BatchState :=
  runBatch items 1 ⟨[], 0, 0, 0⟩

/-! ### Derived definitions and concrete fixtures used in the theorems -/

/-- The image the extraction loop produces for percentage `p` when
`extractOne` succeeds there (an arbitrary default otherwise; only used
under a success hypothesis). -/
def decodedFrame (v : VideoFile) (p : ℚ) : PilImage :=
  ((extractOne v p).toOption).getD ⟨0, 0⟩

/-- A well-formed 2-second video whose decoder returns a 640×480 RGB frame
at every timestamp. -/
def fixtureVideo : VideoFile :=
  { onDisk := true, isFile := true, sizeBytes := 1024,
    meta := { duration := 2, get_frame := fun _ => some ⟨480, 640, 3⟩ } }

/-- A 2-second video whose decoder returns `None` at every timestamp. -/
def brokenVideo : VideoFile :=
  { onDisk := true, isFile := true, sizeBytes := 1024,
    meta := { duration := 2, get_frame := fun _ => none } }

/-- The default frame percentages from config.py. -/
def fixturePercentages : List ℚ := [1/4, 1/2, 3/4]

/-- An oracle for which every embedding call succeeds, the word "gun" has
similarity `s` to the image embedding, and every other word similarity 0. -/
def gunOracle (s : ℚ) : SimOracle :=
  { embedOk := fun _ => true, sim := fun w => if w = "gun" then s else 0 }

/-- The vocabulary of the spec's threshold scenario with threshold `t`. -/
def gunModerator (t : ℚ) : Moderator :=
  { inappropriate_content := [("violence", ["gun"])],
    cacheKeys := [], similarity_threshold := t }

/-- Collaborator behaviour for a clip whose download and 3-frame extraction
succeed. -/
def okEnv : ClipEnv := ⟨.ok true, .ok 3, none⟩

/-- First clip of the batch scenario: processes successfully. -/
def clipA : Clip := ⟨some "c1", some "First", some "https://example.com/a.mov"⟩

/-- Second clip of the batch scenario: its URL field is the empty string. -/
def clipB : Clip := ⟨some "c2", some "Second", some ""⟩

/-- Third clip of the batch scenario: processes successfully. -/
def clipC : Clip := ⟨some "c3", some "Third", some "https://example.com/c.mov"⟩

/-- The 3-clip batch of the spec's orchestrator scenario. -/
def scenarioItems : List (Clip × ClipEnv) :=
  [(clipA, okEnv), (clipB, okEnv), (clipC, okEnv)]

/-! ## Lemmas about the chunk-writing loop -/

/-- Each chunk is written before the size check, so the loop can overshoot
the ceiling by at most one chunk. -/
theorem writeChunks_bound (maxFileSize K : Nat) (chunks : List Nat) :
    ∀ total, total ≤ maxFileSize → (∀ c ∈ chunks, c ≤ K) →
      (writeChunks maxFileSize chunks total).1 ≤ maxFileSize + K := by
  induction chunks with
  | nil =>
      intro total ht _
      simpa [writeChunks] using le_trans ht (Nat.le_add_right _ _)
  | cons c rest ih =>
      intro total ht hc
      have hcK : c ≤ K := hc c (List.mem_cons_self _ _)
      have hrest : ∀ x ∈ rest, x ≤ K :=
        fun x hx => hc x (List.mem_cons_of_mem _ hx)
      by_cases h0 : c = 0
      · simpa [writeChunks, h0] using ih total ht hrest
      · by_cases hover : total + c > maxFileSize
        · simp [writeChunks, h0, hover]
          exact Nat.add_le_add ht hcK
        · simp only [writeChunks, h0, ne_eq, not_false_eq_true, if_true, hover,
            if_false]
          exact ih (total + c) (Nat.le_of_not_lt hover) hrest

/-- When the loop finishes without raising, the total stayed within the
ceiling. -/
theorem writeChunks_ok_le (maxFileSize : Nat) (chunks : List Nat) :
    ∀ total t, total ≤ maxFileSize →
      writeChunks maxFileSize chunks total = (t, none) → t ≤ maxFileSize := by
  induction chunks with
  | nil =>
      intro total t ht h
      simp [writeChunks] at h
      omega
  | cons c rest ih =>
      intro total t ht h
      by_cases h0 : c = 0
      · simp [writeChunks, h0] at h
        exact ih total t ht h
      · by_cases hover : total + c > maxFileSize
        · simp [writeChunks, h0, hover] at h
        · simp only [writeChunks, h0, ne_eq, not_false_eq_true, if_true, hover,
            if_false] at h
          exact ih (total + c) t (Nat.le_of_not_lt hover) h

/-- When the loop raises, the exception is the size-ceiling `ValueError` and
the bytes written exceed the ceiling. -/
theorem writeChunks_abort (maxFileSize : Nat) (chunks : List Nat) :
    ∀ total t e, writeChunks maxFileSize chunks total = (t, some e) →
      e = ⟨.valueErrorCls, "Download exceeded maximum file size"⟩
        ∧ maxFileSize < t := by
  induction chunks with
  | nil =>
      intro total t e h
      simp [writeChunks] at h
  | cons c rest ih =>
      intro total t e h
      by_cases h0 : c = 0
      · simp [writeChunks, h0] at h
        exact ih total t e h
      · by_cases hover : total + c > maxFileSize
        · simp [writeChunks, h0, hover] at h
          exact ⟨h.2.symm, h.1 ▸ hover⟩
        · simp only [writeChunks, h0, ne_eq, not_false_eq_true, if_true, hover,
            if_false] at h
          exact ih (total + c) t e h

/-- A body whose total size fits under the ceiling streams to completion,
writing exactly its size. -/
theorem writeChunks_sum (maxFileSize : Nat) (chunks : List Nat) :
    ∀ total, total + chunks.sum ≤ maxFileSize →
      writeChunks maxFileSize chunks total = (total + chunks.sum, none) := by
  induction chunks with
  | nil =>
      intro total _
      simp [writeChunks]
  | cons c rest ih =>
      intro total hsum
      simp only [List.sum_cons] at hsum
      by_cases h0 : c = 0
      · subst h0
        simpa [writeChunks] using ih total (by omega)
      · have hover : ¬ total + c > maxFileSize := by omega
        simp only [writeChunks, h0, ne_eq, not_false_eq_true, if_true, hover,
          if_false]
        have := ih (total + c) (by omega)
        rw [this]
        simp only [List.sum_cons, Prod.mk.injEq, and_true]
        omega

/-! ## C1: download size ceiling -/

/-- C1 (counterexample): the claim that `download_video` never writes more
than `max_bytes` bytes to disk is false.  With `max_bytes = 4` and a body
streamed as two 3-byte chunks, the loop writes each chunk before checking
the running total, so 6 bytes reach the file before the abort. -/
theorem C1_counterexample :
    (download_video 4 ⟨true, "https"⟩
        ⟨.ok none, .stream [3, 3]⟩).bytesWritten > 4
      ∧ 3 ≤ DOWNLOAD_CHUNK_SIZE := by
  constructor
  · decide
  · decide

/-- C1 (amended): for every URL and server response whose streamed chunks
each hold at most `DOWNLOAD_CHUNK_SIZE` bytes (as `iter_content` guarantees),
`download_video` writes at most `max_bytes + DOWNLOAD_CHUNK_SIZE` bytes to
the local file: each chunk is written before the size check, so the ceiling
can be overshot by at most one chunk, after which the transfer aborts. -/
theorem C1_download_size_bound (maxFileSize : Nat) (url : Url)
    (env : DownloadEnv)
    (hchunks : ∀ c ∈ env.get.chunks, c ≤ DOWNLOAD_CHUNK_SIZE) :
    (download_video maxFileSize url env).bytesWritten
      ≤ maxFileSize + DOWNLOAD_CHUNK_SIZE := by
  unfold download_video
  split
  · split
    · simp
    · rcases hget : env.get with msg | msg | chunks
      · simp
      · simp
      · have hb : (writeChunks maxFileSize chunks 0).1
            ≤ maxFileSize + DOWNLOAD_CHUNK_SIZE := by
          apply writeChunks_bound maxFileSize DOWNLOAD_CHUNK_SIZE chunks 0
            (Nat.zero_le _)
          intro c hc
          exact hchunks c (by simpa [hget, GetOutcome.chunks] using hc)
        rcases hw : writeChunks maxFileSize chunks 0 with ⟨t, e⟩
        have ht : t ≤ maxFileSize + DOWNLOAD_CHUNK_SIZE := by
          simpa [hw] using hb
        cases e <;> simpa [hw] using ht
  · simp

/-- C1 (witness for the amended bound at a concrete input). -/
theorem C1_download_size_bound_witness :
    (download_video 4 ⟨true, "https"⟩
        ⟨.ok none, .stream [3, 3]⟩).bytesWritten ≤ 4 + DOWNLOAD_CHUNK_SIZE :=
  C1_download_size_bound 4 ⟨true, "https"⟩ ⟨.ok none, .stream [3, 3]⟩
    (by decide)

/-! ## C2: mid-stream abort and partial-file cleanup -/

/-- C2 (counterexample): the claim that the partial file is deleted before
the call returns is false.  With `max_bytes = 4` and a streamed body of two
3-byte chunks, the call aborts with the size-ceiling `ValueError`, but the
`finally` block removes the file only when zero bytes were written, so the
6-byte partial file is still on disk when the call returns. -/
theorem C2_counterexample :
    (download_video 4 ⟨true, "http"⟩
        ⟨.ok none, .stream [3, 3]⟩).outcome =
      .error ⟨.valueErrorCls, "Download exceeded maximum file size"⟩
    ∧ (download_video 4 ⟨true, "http"⟩
        ⟨.ok none, .stream [3, 3]⟩).fileExistsAfter = true :=
  ⟨rfl, rfl⟩

/-- C2 (amended): whenever the cumulative bytes written exceed `max_bytes`
mid-transfer, `download_video` aborts immediately with the size-ceiling
`ValueError` — but the partially written local file is NOT deleted before
the call returns: the downloader's `finally` block unlinks the file only
when zero bytes were written, leaving mid-stream partial files for the
caller (the orchestrator's own cleanup) to remove. -/
theorem C2_midstream_abort (maxFileSize : Nat) (url : Url) (env : DownloadEnv)
    (h : (download_video maxFileSize url env).bytesWritten > maxFileSize) :
    (download_video maxFileSize url env).outcome =
      .error ⟨.valueErrorCls, "Download exceeded maximum file size"⟩
    ∧ (download_video maxFileSize url env).fileExistsAfter = true := by
  revert h
  unfold download_video
  split
  · split
    · intro h; simp at h
    · rcases hget : env.get with msg | msg | chunks
      · intro h; simp at h
      · intro h; simp at h
      · rcases hw : writeChunks maxFileSize chunks 0 with ⟨t, e⟩
        cases e with
        | none =>
            intro h
            simp only [hw] at h
            have := writeChunks_ok_le maxFileSize chunks 0 t (Nat.zero_le _) hw
            omega
        | some exn =>
            intro h
            have habort := writeChunks_abort maxFileSize chunks 0 t exn hw
            have ht : t ≠ 0 := by omega
            simp [hw, habort.1, ht]
  · intro h; simp at h

/-- C2 (witness for the amended statement at a concrete input). -/
theorem C2_midstream_abort_witness :
    (download_video 4 ⟨true, "http"⟩ ⟨.ok none, .stream [5]⟩).outcome =
      .error ⟨.valueErrorCls, "Download exceeded maximum file size"⟩
    ∧ (download_video 4 ⟨true, "http"⟩
        ⟨.ok none, .stream [5]⟩).fileExistsAfter = true :=
  C2_midstream_abort 4 ⟨true, "http"⟩ ⟨.ok none, .stream [5]⟩ (by decide)

/-! ## C6: how timeouts are reported -/

/-- C6 (counterexample): the claim that a timeout is reported as a distinct
`Timeout` error is false.  A `requests.exceptions.Timeout` raised during the
GET is caught and re-raised as the plain base `requests.RequestException`
(with a `"Download timeout: ..."` message), so the exception the caller
receives is not an instance of the `Timeout` class — it has exactly the
base class that any generic network failure is also an instance of. -/
theorem C6_counterexample :
    (download_video 100 ⟨true, "https"⟩
        ⟨.ok none, .timeout "read timed out"⟩).outcome =
      .error ⟨.reqExceptionCls, "Download timeout: read timed out"⟩
    ∧ ExnClass.reqExceptionCls.isTimeout = false
    ∧ ExnClass.reqExceptionCls.isRequestException = true :=
  ⟨rfl, rfl, rfl⟩

/-- C6 (amended): a connect/read timeout is reported by re-raising it as the
base `requests.RequestException` whose message is the original message
prefixed with `"Download timeout: "`; it is not an instance of the `Timeout`
exception class, so the caller can distinguish it from a generic network
failure (re-raised with its own class and message) only by the message
prefix, not by exception type. -/
theorem C6_timeout_reporting (maxFileSize : Nat) (url : Url) (msg : String)
    (head : HeadResult) (sz : Option Nat)
    (hu : validate_url url = true)
    (hh : check_file_size maxFileSize head = .ok sz) :
    (download_video maxFileSize url ⟨head, .timeout msg⟩).outcome =
      .error ⟨.reqExceptionCls, "Download timeout: " ++ msg⟩
    ∧ ExnClass.reqExceptionCls.isTimeout = false
    ∧ (∀ msg2, (download_video maxFileSize url ⟨head, .netErr msg2⟩).outcome =
        .error ⟨.connErrorCls, msg2⟩) := by
  refine ⟨?_, rfl, ?_⟩
  · simp [download_video, hu, hh]
  · intro msg2
    simp [download_video, hu, hh]

/-- C6 (witness for the amended statement at a concrete input). -/
theorem C6_timeout_reporting_witness :
    (download_video 100 ⟨true, "http"⟩
        ⟨.ok none, .timeout "connect timed out"⟩).outcome =
      .error ⟨.reqExceptionCls, "Download timeout: connect timed out"⟩
    ∧ ExnClass.reqExceptionCls.isTimeout = false
    ∧ (∀ msg2, (download_video 100 ⟨true, "http"⟩
        ⟨.ok none, .netErr msg2⟩).outcome = .error ⟨.connErrorCls, msg2⟩) :=
  C6_timeout_reporting 100 ⟨true, "http"⟩ "connect timed out"
    (.ok none) none (by decide) rfl

/-! ## C7: invalid URLs fail before any network call -/

/-- C7: for every URL that `validate_url` rejects (malformed, or a scheme
other than http/https), `download_video` raises `ValueError` and performs
zero network requests: the request trace is empty and no bytes are
written. -/
theorem C7_invalid_url_no_network (maxFileSize : Nat) (url : Url)
    (env : DownloadEnv) (h : validate_url url = false) :
    (download_video maxFileSize url env).outcome =
      .error ⟨.valueErrorCls, "Invalid URL"⟩
    ∧ (download_video maxFileSize url env).requests = []
    ∧ (download_video maxFileSize url env).bytesWritten = 0 := by
  simp [download_video, h]

/-- C7 (witness): a well-formed `ftp://` URL is rejected with no network
activity. -/
theorem C7_invalid_url_no_network_witness :
    (download_video 100 ⟨true, "ftp"⟩ ⟨.ok none, .stream [1]⟩).outcome =
      .error ⟨.valueErrorCls, "Invalid URL"⟩
    ∧ (download_video 100 ⟨true, "ftp"⟩ ⟨.ok none, .stream [1]⟩).requests = []
    ∧ (download_video 100 ⟨true, "ftp"⟩
        ⟨.ok none, .stream [1]⟩).bytesWritten = 0 :=
  C7_invalid_url_no_network 100 ⟨true, "ftp"⟩ ⟨.ok none, .stream [1]⟩
    (by decide)

/-! ## C10: a failed pre-flight size check does not fail the download -/

/-- C10: when the HEAD request of `_check_file_size` itself fails with a
network error, the size check swallows the exception and returns `None`, and
`download_video` proceeds to the GET regardless of the GET's outcome; a body
that fits under the ceiling then downloads successfully, the ceiling being
enforced only by the mid-stream cumulative-bytes check. -/
theorem C10_head_failure_proceeds (maxFileSize : Nat) (url : Url)
    (get : GetOutcome) (chunks : List Nat)
    (hu : validate_url url = true) :
    check_file_size maxFileSize HeadResult.err = .ok none
    ∧ (download_video maxFileSize url ⟨HeadResult.err, get⟩).requests =
        ["HEAD", "GET"]
    ∧ (chunks.sum ≤ maxFileSize →
        (download_video maxFileSize url
          ⟨HeadResult.err, .stream chunks⟩).outcome = .ok true) := by
  refine ⟨rfl, ?_, ?_⟩
  · cases get with
    | timeout msg => simp [download_video, hu, check_file_size]
    | netErr msg => simp [download_video, hu, check_file_size]
    | stream cs =>
        rcases hw : writeChunks maxFileSize cs 0 with ⟨t, e⟩
        cases e <;> simp [download_video, hu, check_file_size, hw]
  · intro hsum
    have hw := writeChunks_sum maxFileSize chunks 0 (by simpa using hsum)
    simp [download_video, hu, check_file_size, hw]

/-- C10 (witness): HEAD fails, the body fits, and the download returns
`True`. -/
theorem C10_head_failure_proceeds_witness :
    check_file_size 100 HeadResult.err = .ok none
    ∧ (download_video 100 ⟨true, "https"⟩
        ⟨HeadResult.err, .stream [30, 0, 40]⟩).requests = ["HEAD", "GET"]
    ∧ ((30 : Nat) + (0 + (40 + 0)) ≤ 100 →
        (download_video 100 ⟨true, "https"⟩
          ⟨HeadResult.err, .stream [30, 0, 40]⟩).outcome = .ok true) := by
  have h := C10_head_failure_proceeds 100 ⟨true, "https"⟩
    (.stream [30, 0, 40]) [30, 0, 40] (by decide)
  exact ⟨h.1, h.2.1, fun _ => h.2.2 (by decide)⟩

/-! ## C3: frame extraction -/

/-- Every failure of one loop iteration is the `RuntimeError` naming the
offending percentage. -/
theorem extractOne_error (v : VideoFile) (p : ℚ) (e : ExtractErr)
    (h : extractOne v p = .error e) : e = .extractionFailed p := by
  simp only [extractOne] at h
  rcases hf : v.meta.get_frame (v.meta.duration * p) with _ | fa <;>
    simp only [hf] at h
  · injection h with h; exact h.symm
  · split at h
    · injection h with h; exact h.symm
    · split at h
      · injection h with h; exact h.symm
      · exact absurd h (by simp)

/-- A successful loop iteration returns exactly the converted frame the
decoder produced at timestamp `duration * p`. -/
theorem extractOne_ok_frame (v : VideoFile) (p : ℚ) (img : PilImage)
    (h : extractOne v p = .ok img) :
    ∃ fa, v.meta.get_frame (v.meta.duration * p) = some fa
      ∧ img = fromArray fa := by
  simp only [extractOne] at h
  rcases hf : v.meta.get_frame (v.meta.duration * p) with _ | fa <;>
    simp only [hf] at h
  · exact absurd h (by simp)
  · refine ⟨fa, rfl, ?_⟩
    split at h
    · exact absurd h (by simp)
    · split at h
      · exact absurd h (by simp)
      · injection h with h; exact h.symm

/-- When every percentage decodes, the loop returns the decoded frames in
input order. -/
theorem extractLoop_ok (v : VideoFile) :
    ∀ ps : List ℚ, (∀ p ∈ ps, ∃ img, extractOne v p = .ok img) →
      extractLoop v ps = .ok (ps.map (decodedFrame v)) := by
  intro ps
  induction ps with
  | nil => intro _; simp [extractLoop]
  | cons p rest ih =>
      intro h
      obtain ⟨img, himg⟩ := h p (List.mem_cons_self _ _)
      have hrest := ih (fun q hq => h q (List.mem_cons_of_mem _ hq))
      have hdec : decodedFrame v p = img := by
        simp [decodedFrame, himg, Except.toOption]
      simp [extractLoop, himg, hrest, hdec]

/-- The first failing percentage aborts the loop with its error; no partial
list is returned. -/
theorem extractLoop_err (v : VideoFile) (p : ℚ) (e : ExtractErr)
    (hp : extractOne v p = .error e) :
    ∀ pre post, (∀ q ∈ pre, ∃ img, extractOne v q = .ok img) →
      extractLoop v (pre ++ p :: post) = .error e := by
  intro pre
  induction pre with
  | nil => intro post _; simp [extractLoop, hp]
  | cons q rest ih =>
      intro post h
      obtain ⟨img, himg⟩ := h q (List.mem_cons_self _ _)
      have htail := ih post (fun r hr => h r (List.mem_cons_of_mem _ hr))
      simp [extractLoop, himg, htail]

/-- C3: for a valid video of positive duration and a non-empty percentage
list with all values in `[0, 1]`: when every percentage decodes to a valid
frame, `extract_frames_at_percentages` returns exactly one frame per
percentage, in input order, each being the decoder's frame at timestamp
`duration * p`; and when some percentage yields a null or empty frame, the
whole call fails with the `RuntimeError` naming that percentage and no
partial list is returned. -/
theorem C3_extract_frames (v : VideoFile) (ps : List ℚ)
    (hne : ps ≠ [])
    (hrange : ∀ p ∈ ps, 0 ≤ p ∧ p ≤ 1)
    (hfile : validate_video_file v = none)
    (hdur : 0 < v.meta.duration) :
    ((∀ p ∈ ps, ∃ img, extractOne v p = .ok img) →
      extract_frames_at_percentages v ps = .ok (ps.map (decodedFrame v))
        ∧ (ps.map (decodedFrame v)).length = ps.length
        ∧ ∀ p ∈ ps, ∃ fa,
            v.meta.get_frame (v.meta.duration * p) = some fa
            ∧ decodedFrame v p = fromArray fa)
    ∧ (∀ pre p post e, ps = pre ++ p :: post →
        (∀ q ∈ pre, ∃ img, extractOne v q = .ok img) →
        extractOne v p = .error e →
        extract_frames_at_percentages v ps =
          .error (.extractionFailed p)) := by
  have hemp : ps.isEmpty = false := by
    cases ps with
    | nil => exact absurd rfl hne
    | cons a l => rfl
  have hall : ps.all (fun p => decide (0 ≤ p) && decide (p ≤ 1)) = true := by
    rw [List.all_eq_true]
    intro p hp
    have := hrange p hp
    simp [this.1, this.2]
  have hvp : validate_percentages ps = none := by
    simp [validate_percentages, hemp, hall]
  have hrun : extract_frames_at_percentages v ps = extractLoop v ps := by
    simp [extract_frames_at_percentages, hfile, hvp, not_le.mpr hdur]
  constructor
  · intro hok
    refine ⟨hrun.trans (extractLoop_ok v ps hok), by simp, ?_⟩
    intro p hp
    obtain ⟨img, himg⟩ := hok p hp
    obtain ⟨fa, hfa, hconv⟩ := extractOne_ok_frame v p img himg
    exact ⟨fa, hfa, by simp [decodedFrame, himg, hconv, Except.toOption]⟩
  · intro pre p post e hsplit hpre herr
    have hep := extractOne_error v p e herr
    rw [hrun, hsplit, extractLoop_err v p e herr pre post hpre, hep]

/-- C3 (witness): on the fixture video the call returns the three 640×480
frames, one per default percentage, in order. -/
theorem C3_extract_frames_witness :
    extract_frames_at_percentages fixtureVideo fixturePercentages =
      .ok [⟨640, 480⟩, ⟨640, 480⟩, ⟨640, 480⟩] :=
  (((C3_extract_frames fixtureVideo fixturePercentages (by decide)
      (by
        intro p hp
        simp only [fixturePercentages, List.mem_cons, List.not_mem_nil,
          or_false] at hp
        rcases hp with rfl | rfl | rfl <;> constructor <;> norm_num)
      rfl (by norm_num [fixtureVideo])).1
      (fun p _ => ⟨⟨640, 480⟩, rfl⟩)).1).trans
    (by
      simp [fixturePercentages, decodedFrame, extractOne, fixtureVideo,
        fromArray, Except.toOption, FrameArray.size])


/-! ## C4: strict threshold comparison -/

/-- Every category entry the scan produces computes its flag by a strict
comparison of its own maximum against the threshold. -/
theorem scanCategories_flagged (o : SimOracle) (t : ℚ) :
    ∀ (vocab : List (String × List String)) (gMax : ℚ) (gBest : Option String)
      (cat : String) (cr : CategoryResult),
      (cat, cr) ∈ (scanCategories o t vocab gMax gBest).1 →
      cr.flagged = decide (cr.max_similarity > t) := by
  intro vocab
  induction vocab with
  | nil => intro gMax gBest cat cr h; simp [scanCategories] at h
  | cons entry rest ih =>
      rcases entry with ⟨c, ws⟩
      intro gMax gBest cat cr h
      simp only [scanCategories, List.mem_cons] at h
      rcases h with h | h
      · cases h; rfl
      · exact ih _ _ cat cr h

/-- C4: the verdict is flagged iff its overall maximum similarity strictly
exceeds the threshold; each category is flagged iff its own maximum strictly
exceeds the threshold; and a maximum exactly equal to the threshold is not
flagged (the comparison is `>`, never `>=`). -/
theorem C4_strict_threshold (m : Moderator) (o : SimOracle) :
    ((check_image_content m o).flagged = true ↔
        (check_image_content m o).max_similarity > m.similarity_threshold)
    ∧ (∀ cat cr, (cat, cr) ∈ (check_image_content m o).categories →
        (cr.flagged = true ↔ cr.max_similarity > m.similarity_threshold))
    ∧ ((check_image_content m o).max_similarity = m.similarity_threshold →
        (check_image_content m o).flagged = false) := by
  refine ⟨?_, ?_, ?_⟩
  · simp [check_image_content]
  · intro cat cr h
    have := scanCategories_flagged o m.similarity_threshold
      m.inappropriate_content 0 none cat cr
      (by simpa [check_image_content] using h)
    rw [this]
    simp
  · intro h
    simp only [check_image_content] at h ⊢
    rw [h]
    simp

/-- C4 (witness): the spec scenario — vocabulary `{"violence": ["gun"]}`,
threshold `0.3`, similarity to "gun" exactly `0.3` — is not flagged. -/
theorem C4_strict_threshold_witness :
    (check_image_content (gunModerator (3/10)) (gunOracle (3/10))).flagged
      = false :=
  (C4_strict_threshold (gunModerator (3/10)) (gunOracle (3/10))).2.2
    (by norm_num [check_image_content, scanCategories, scanWords,
      gunModerator, gunOracle])

/-! ## C8: add_word idempotence and cache invalidation -/

/-- Inserting a fresh category key at the end of the dict makes its lookup
succeed with the empty list. -/
theorem lookupCat_append_none :
    ∀ (v : List (String × List String)) (c : String),
      lookupCat v c = none → lookupCat (v ++ [(c, [])]) c = some [] := by
  intro v c
  induction v with
  | nil => intro _; simp [lookupCat]
  | cons e rest ih =>
      rcases e with ⟨k, ws⟩
      intro h
      by_cases hk : k = c
      · simp [lookupCat, hk] at h
      · simp only [lookupCat, hk, if_false] at h
        simp only [List.cons_append, lookupCat, hk, if_false]
        exact ih h
/-- Appending a word to a category's list is seen by the next lookup. -/
theorem lookupCat_appendWord :
    ∀ (v : List (String × List String)) (c w : String) (ws : List String),
      lookupCat v c = some ws →
      lookupCat (appendWord v c w) c = some (ws ++ [w]) := by
  intro v c w
  induction v with
  | nil => intro ws h; simp [lookupCat] at h
  | cons e rest ih =>
      rcases e with ⟨k, ws'⟩
      intro ws h
      by_cases hk : k = c
      · subst hk
        have hws : ws' = ws := by simpa [lookupCat] using h
        subst hws
        simp [appendWord, lookupCat]
      · simp only [lookupCat, hk, if_false] at h
        simp only [appendWord, hk, if_false, lookupCat]
        exact ih ws h
/-- C8: `add_inappropriate_word` is idempotent — calling it twice with the
same category and word leaves the same moderator state as calling it once —
and whenever the call actually changes the vocabulary (inserts a word), the
entire text-embedding cache is cleared. -/
theorem C8_add_word_idempotent (m : Moderator) (c w : String) :
    add_inappropriate_word (add_inappropriate_word m c w) c w
      = add_inappropriate_word m c w
    ∧ ((add_inappropriate_word m c w).inappropriate_content
          ≠ m.inappropriate_content →
        (add_inappropriate_word m c w).cacheKeys = []) := by
  rcases hl : lookupCat m.inappropriate_content c with _ | ws
  · have h1 : lookupCat (m.inappropriate_content ++ [(c, [])]) c = some [] :=
      lookupCat_append_none _ _ hl
    have hres : add_inappropriate_word m c w =
        ⟨appendWord (m.inappropriate_content ++ [(c, [])]) c w, [],
          m.similarity_threshold⟩ := by
      simp [add_inappropriate_word, hl, h1]
    have h2 : lookupCat
        (appendWord (m.inappropriate_content ++ [(c, [])]) c w) c
        = some [w] := by
      simpa using lookupCat_appendWord _ _ w _ h1
    constructor
    · rw [hres]
      simp [add_inappropriate_word, h2]
    · intro _
      rw [hres]
  · by_cases hw : w ∈ ws
    · have hres : add_inappropriate_word m c w = m := by
        simp [add_inappropriate_word, hl, hw]
      constructor
      · rw [hres]
        exact hres
      · intro hcontra
        exact absurd (by rw [hres]) hcontra
    · have hres : add_inappropriate_word m c w =
          ⟨appendWord m.inappropriate_content c w, [],
            m.similarity_threshold⟩ := by
        simp [add_inappropriate_word, hl, hw]
      have h2 : lookupCat (appendWord m.inappropriate_content c w) c
          = some (ws ++ [w]) :=
        lookupCat_appendWord _ _ w _ hl
      constructor
      · rw [hres]
        simp [add_inappropriate_word, h2]
      · intro _
        rw [hres]

/-- C8 (witness): adding "axe" to a moderator with a non-empty cache clears
the cache, and a second identical call changes nothing. -/
theorem C8_add_word_witness :
    (add_inappropriate_word
        (add_inappropriate_word
          ⟨[("violence", ["gun"])], ["gun"], 1/4⟩ "violence" "axe")
        "violence" "axe"
      = add_inappropriate_word
          ⟨[("violence", ["gun"])], ["gun"], 1/4⟩ "violence" "axe")
    ∧ (add_inappropriate_word
        (⟨[("violence", ["gun"])], ["gun"], 1/4⟩ : Moderator)
        "violence" "axe").cacheKeys = [] :=
  ⟨(C8_add_word_idempotent ⟨[("violence", ["gun"])], ["gun"], 1/4⟩
      "violence" "axe").1,
   (C8_add_word_idempotent ⟨[("violence", ["gun"])], ["gun"], 1/4⟩
      "violence" "axe").2 (by decide)⟩

/-! ## C9: monotonicity in the threshold -/

/-- The category scan's maxima and best-word fields do not depend on the
threshold; each flag is the strict comparison of its maximum with the
respective threshold. -/
theorem scanCategories_threshold (o : SimOracle) (t1 t2 : ℚ) :
    ∀ (vocab : List (String × List String)) (gMax : ℚ)
      (gBest : Option String),
      (scanCategories o t1 vocab gMax gBest).2
        = (scanCategories o t2 vocab gMax gBest).2
      ∧ List.Forall₂
          (fun (e1 e2 : String × CategoryResult) =>
            e1.1 = e2.1 ∧ e1.2.max_similarity = e2.2.max_similarity
              ∧ e1.2.flagged = decide (e1.2.max_similarity > t1)
              ∧ e2.2.flagged = decide (e2.2.max_similarity > t2))
          (scanCategories o t1 vocab gMax gBest).1
          (scanCategories o t2 vocab gMax gBest).1 := by
  intro vocab
  induction vocab with
  | nil =>
      intro gMax gBest
      exact ⟨rfl, List.Forall₂.nil⟩
  | cons entry rest ih =>
      rcases entry with ⟨c, ws⟩
      intro gMax gBest
      have h := ih (scanWords o ws 0 none gMax gBest).2.2.1
        (scanWords o ws 0 none gMax gBest).2.2.2
      exact ⟨h.1, List.Forall₂.cons ⟨rfl, rfl, rfl, rfl⟩ h.2⟩

/-- C9: for a fixed image embedding and vocabulary, classification is
monotone in the threshold: with `t1 ≤ t2`, anything unflagged at `t1`
(overall verdict or any category) is still unflagged at `t2`, and all
similarity maxima are unchanged. -/
theorem C9_threshold_monotone (vocab : List (String × List String))
    (cache : List String) (o : SimOracle) (t1 t2 : ℚ) (h : t1 ≤ t2) :
    ((check_image_content ⟨vocab, cache, t1⟩ o).flagged = false →
      (check_image_content ⟨vocab, cache, t2⟩ o).flagged = false)
    ∧ (check_image_content ⟨vocab, cache, t1⟩ o).max_similarity
        = (check_image_content ⟨vocab, cache, t2⟩ o).max_similarity
    ∧ List.Forall₂
        (fun (e1 e2 : String × CategoryResult) =>
          e1.1 = e2.1 ∧ e1.2.max_similarity = e2.2.max_similarity
            ∧ (e1.2.flagged = false → e2.2.flagged = false))
        (check_image_content ⟨vocab, cache, t1⟩ o).categories
        (check_image_content ⟨vocab, cache, t2⟩ o).categories := by
  have hs := scanCategories_threshold o t1 t2 vocab 0 none
  have hg : (scanCategories o t1 vocab 0 none).2.1
      = (scanCategories o t2 vocab 0 none).2.1 := by rw [hs.1]
  refine ⟨?_, ?_, ?_⟩
  · intro h1
    simp only [check_image_content, decide_eq_false_iff_not, not_lt]
      at h1 ⊢
    rw [← hg]
    exact le_trans h1 h
  · simp only [check_image_content]
    exact hg
  · simp only [check_image_content]
    refine List.Forall₂.imp ?_ hs.2
    rintro e1 e2 ⟨h1, h2, h3, h4⟩
    refine ⟨h1, h2, ?_⟩
    intro hf
    rw [h3] at hf
    rw [h4, ← h2]
    simp only [decide_eq_false_iff_not, not_lt] at hf ⊢
    exact le_trans hf h

/-- C9 (witness): raising the threshold from 0.25 to 0.5 over the scenario
vocabulary keeps the maxima and can only unflag. -/
theorem C9_threshold_monotone_witness :
    ((check_image_content ⟨[("violence", ["gun"])], [], 1/4⟩
        (gunOracle (3/10))).flagged = false →
      (check_image_content ⟨[("violence", ["gun"])], [], 1/2⟩
        (gunOracle (3/10))).flagged = false)
    ∧ (check_image_content ⟨[("violence", ["gun"])], [], 1/4⟩
        (gunOracle (3/10))).max_similarity
        = (check_image_content ⟨[("violence", ["gun"])], [], 1/2⟩
            (gunOracle (3/10))).max_similarity
    ∧ List.Forall₂
        (fun (e1 e2 : String × CategoryResult) =>
          e1.1 = e2.1 ∧ e1.2.max_similarity = e2.2.max_similarity
            ∧ (e1.2.flagged = false → e2.2.flagged = false))
        (check_image_content ⟨[("violence", ["gun"])], [], 1/4⟩
          (gunOracle (3/10))).categories
        (check_image_content ⟨[("violence", ["gun"])], [], 1/2⟩
          (gunOracle (3/10))).categories :=
  C9_threshold_monotone [("violence", ["gun"])] [] (gunOracle (3/10))
    (1/4) (1/2) (by norm_num)


/-! ## C5: per-clip failure isolation and batch statistics -/

/-- A per-clip result that is not successful always carries an error
message. -/
theorem process_single_clip_error_message (clip : Clip) (env : ClipEnv)
    (h : (process_single_clip clip env).success = false) :
    (process_single_clip clip env).error_message ≠ none := by
  revert h
  simp only [process_single_clip]
  split
  · intro _; simp
  · rcases hd : env.download with b | msg
    · cases b
      · intro _; simp
      · rcases he : env.extract with n | msg
        · rcases hs : env.saveError with _ | msg
          · intro h; simp at h
          · intro _; simp
        · intro _; simp
    · intro _; simp

/-- Each processed clip bumps `total_processed` by one and exactly one of
the success/failure counters by one. -/
theorem runBatch_counts :
    ∀ (items : List (Clip × ClipEnv)) (i : Nat) (st : BatchState),
      (runBatch items i st).total_processed
          = st.total_processed + items.length
      ∧ (runBatch items i st).successful_processed
            + (runBatch items i st).failed_processed
          = st.successful_processed + st.failed_processed + items.length := by
  intro items
  induction items with
  | nil => intro i st; simp [runBatch]
  | cons item rest ih =>
      rcases item with ⟨clip, env⟩
      intro i st
      simp only [runBatch, List.length_cons]
      constructor
      · rw [(ih (i + 1) _).1]
        simp
        omega
      · rw [(ih (i + 1) _).2]
        cases hsucc : (process_single_clip clip env).success <;>
          simp [hsucc] <;> omega

/-- C5: any per-clip failure (missing URL, download failure or exception,
extraction exception, save exception) yields a failed `ProcessingResult`
carrying an error message while the batch continues — `total_processed`
always equals the number of clips and splits exactly into successes plus
failures; and on the 3-clip scenario where clip 2's URL field is empty the
statistics are `total=3, successful=2, failed=1` with clip 2's result
carrying the missing-input message. -/
theorem C5_batch_error_handling :
    (∀ clip env, (process_single_clip clip env).success = false →
      (process_single_clip clip env).error_message ≠ none)
    ∧ (∀ items : List (Clip × ClipEnv),
        (process_all_clips items).total_processed = items.length
        ∧ (process_all_clips items).successful_processed
            + (process_all_clips items).failed_processed = items.length)
    ∧ (process_all_clips scenarioItems).total_processed = 3
    ∧ (process_all_clips scenarioItems).successful_processed = 2
    ∧ (process_all_clips scenarioItems).failed_processed = 1
    ∧ (dictLookup (process_all_clips scenarioItems).results "c2").map
        (fun r => r.error_message)
      = some (some "No clip_path found in clip data") := by
  refine ⟨process_single_clip_error_message, ?_, ?_, ?_, ?_, ?_⟩
  · intro items
    have h := runBatch_counts items 1 ⟨[], 0, 0, 0⟩
    exact ⟨by simpa [process_all_clips] using h.1,
      by simpa [process_all_clips] using h.2⟩
  · decide
  · decide
  · decide
  · decide

/-- C5 (witness): a download exception on an otherwise valid clip yields a
failed result that still carries the exception's message. -/
theorem C5_batch_error_handling_witness :
    (process_single_clip ⟨some "c9", some "Ninth", some "https://x/v.mov"⟩
      ⟨.raise "Connection refused", .ok 0, none⟩).error_message ≠ none :=
  C5_batch_error_handling.1
    ⟨some "c9", some "Ninth", some "https://x/v.mov"⟩
    ⟨.raise "Connection refused", .ok 0, none⟩ (by decide)

end ClipAnalyzer
